import Mathlib

/-!
Shallow embedding of the instance-lifecycle orchestration core of the Dedi
repository: the file-backed ownership registry
(`dedi-bot-simple/services/instanceTracker.js`), the retrying API adapter
(`dedi-bot-simple/services/vultrWrapper.js`), and the self-protection guard
and convergence-polling loops of `Dedi-Bot/index.js`.

JavaScript objects are modelled as Lean structures restricted to the fields
the embedded functions read or write; object spread (`{...a, ...b}`) becomes
field-by-field override; `findIndex` followed by in-place assignment becomes
first-match replacement in a list; thrown errors become `Except` values; the
`setTimeout` sleeps of the retry loop are recorded as an explicit list of
delays so that backoff behaviour is observable.
-/

set_option autoImplicit false

namespace Dedi

/-! ## Ownership registry (`dedi-bot-simple/services/instanceTracker.js`)

The registry file holds `{ instances: [...] }`; we model the array of
records directly.  The same record shape and the same `updateInstance`
logic appear verbatim in the in-memory `instanceState` object of
`Dedi-Bot/index.js`, so the polling loops below reuse these definitions. -/

/-- Creator object stored on a record: `{ id: userId, username }`. -/
structure Creator where
  id : String
  username : String
deriving Repr, DecidableEq

/-- One entry of the `instances` array, with the fields the tracker writes. -/
structure InstanceRecord where
  id : String
  creator : Creator
  createdAt : String
  status : String
  ip : Option String
  name : String
  lastUpdated : String
deriving Repr, DecidableEq

/-- Metadata object accepted by `logInstanceCreation`: optional `ip` and
`name` keys (`metadata.ip || null`, `metadata.name || default`). -/
structure CreationMetadata where
  ip : Option String := none
  name : Option String := none
deriving Repr, DecidableEq

/-- Metadata object accepted by `updateInstance`; a `some` field means the
key is present in the object and will be spread over the record last. -/
structure UpdateMetadata where
  ip : Option String := none
  name : Option String := none
  creator : Option Creator := none
  status : Option String := none
deriving Repr, DecidableEq

/-- The fresh `instanceData` object built by `logInstanceCreation`: every
field is populated, `status` is hard-coded to `creating`, and the default
name is `` `${username}'s Server` ``. -/
def mkInstanceData (instanceId userId username : String) (md : CreationMetadata)
    (timestamp : String) : InstanceRecord :=
  { id := instanceId
    creator := { id := userId, username := username }
    createdAt := timestamp
    status := "creating"
    ip := md.ip
    name := md.name.getD (username ++ "\x27s Server")
    lastUpdated := timestamp }

/-- `logInstanceCreation`: find the first record with this id and replace it
with `{...existing, ...instanceData}` — since `instanceData` populates every
field, the merge is a full overwrite — otherwise push the new record. -/
def logInstanceCreation : List InstanceRecord → String → String → String →
    CreationMetadata → String → List InstanceRecord
  | [], instanceId, userId, username, md, ts =>
      [mkInstanceData instanceId userId username md ts]
  | r :: rs, instanceId, userId, username, md, ts =>
      if r.id = instanceId then
        mkInstanceData instanceId userId username md ts :: rs
      else
        r :: logInstanceCreation rs instanceId userId username md ts

/-- The record produced by
`{...existing, status, lastUpdated: now, ...metadata}` in `updateInstance`:
keys present in `metadata` win over the positional `status` and over every
stored field. -/
def applyUpdate (r : InstanceRecord) (status now : String)
    (md : UpdateMetadata) : InstanceRecord :=
  { r with
    status := md.status.getD status
    lastUpdated := now
    ip := match md.ip with
      | some v => some v
      | none => r.ip
    name := md.name.getD r.name
    creator := md.creator.getD r.creator }

/-- `updateInstance`: update the first record whose id matches and return it;
if no record matches, return `null` and write nothing. -/
def updateInstance : List InstanceRecord → String → String → UpdateMetadata →
    String → List InstanceRecord × Option InstanceRecord
  | [], _, _, _, _ => ([], none)
  | r :: rs, instanceId, status, md, now =>
      if r.id = instanceId then
        (applyUpdate r status now md :: rs, some (applyUpdate r status now md))
      else
        let t := updateInstance rs instanceId status md now
        (r :: t.1, t.2)

/-- `getInstance` of the tracker: `instances.find(i => i.id === instanceId)`. -/
def getInstance? : List InstanceRecord → String → Option InstanceRecord
  | [], _ => none
  | r :: rs, instanceId => if r.id = instanceId then some r else getInstance? rs instanceId

/-! Helper lemmas about the registry, shared by several claims. -/

theorem mkInstanceData_id (instanceId userId username : String)
    (md : CreationMetadata) (ts : String) :
    (mkInstanceData instanceId userId username md ts).id = instanceId := rfl

theorem applyUpdate_id (r : InstanceRecord) (status now : String)
    (md : UpdateMetadata) : (applyUpdate r status now md).id = r.id := rfl

/-- Looking up an id right after `logInstanceCreation` for that id yields
exactly the freshly built record. -/
theorem logInstanceCreation_get (reg : List InstanceRecord)
    (instanceId userId username : String) (md : CreationMetadata) (ts : String) :
    getInstance? (logInstanceCreation reg instanceId userId username md ts) instanceId
      = some (mkInstanceData instanceId userId username md ts) := by
  induction reg with
  | nil => simp [logInstanceCreation, getInstance?, mkInstanceData_id]
  | cons r rs ih =>
      by_cases h : r.id = instanceId
      · simp [logInstanceCreation, h, getInstance?, mkInstanceData_id]
      · simp [logInstanceCreation, h, getInstance?, ih]

/-- When the id is present, `updateInstance` stores `applyUpdate` of the
first matching record at its position. -/
theorem updateInstance_get (reg : List InstanceRecord)
    (instanceId status : String) (md : UpdateMetadata) (now : String)
    (r : InstanceRecord) (h : getInstance? reg instanceId = some r) :
    getInstance? (updateInstance reg instanceId status md now).1 instanceId
      = some (applyUpdate r status now md) := by
  induction reg with
  | nil => simp [getInstance?] at h
  | cons q qs ih =>
      by_cases hq : q.id = instanceId
      · simp [getInstance?, hq] at h
        subst h
        simp [updateInstance, hq, getInstance?, applyUpdate_id]
      · simp [getInstance?, hq] at h
        simp [updateInstance, hq, getInstance?, ih h]

/-- When the id is absent, `updateInstance` is the identity on the registry
and returns `null`. -/
theorem updateInstance_absent (reg : List InstanceRecord)
    (instanceId status : String) (md : UpdateMetadata) (now : String)
    (h : getInstance? reg instanceId = none) :
    updateInstance reg instanceId status md now = (reg, none) := by
  induction reg with
  | nil => simp [updateInstance]
  | cons q qs ih =>
      by_cases hq : q.id = instanceId
      · simp [getInstance?, hq] at h
      · simp [getInstance?, hq] at h
        simp [updateInstance, hq, ih h]

/-! ## Retrying API adapter (`dedi-bot-simple/services/vultrWrapper.js`)

API responses are duck-typed JSON values, modelled by `JVal`; the
`propertyPath` option is the list of keys produced by `path.split('.')`. -/

/-- JSON-ish value, covering the shapes the wrapper inspects. -/
inductive JVal where
  | null
  | str (s : String)
  | num (n : Int)
  | obj (fields : List (String × JVal))
  | arr (elems : List JVal)

/-- Field lookup on an object; any other shape has no own properties here. -/
def jField : List (String × JVal) → String → Option JVal
  | [], _ => none
  | (k, v) :: fs, key => if k = key then some v else jField fs key

/-- Property access `obj[key]`, `undefined` (`none`) off an object. -/
def jGet : JVal → String → Option JVal
  | JVal.obj fs, key => jField fs key
  | _, _ => none

/-- JavaScript truthiness of a value. -/
def jTruthy : JVal → Bool
  | JVal.null => false
  | JVal.str s => s ≠ ""
  | JVal.num n => n ≠ 0
  | JVal.obj _ => true
  | JVal.arr _ => true

/-- The `propertyPath.split('.').reduce(...)` extraction:
`(obj, key) => (obj && obj[key] !== undefined) ? obj[key] : undefined`. -/
def extractPath : List String → JVal → Option JVal
  | [], v => some v
  | key :: keys, v =>
      if jTruthy v then
        match jGet v key with
        | some w => extractPath keys w
        | none => none
      else none

/-- Outcome of one raw `apiCall(params)`: resolved with a response, or
rejected with an error message. -/
inductive ApiOutcome where
  | resp (v : JVal)
  | fail (e : String)

/-- Error thrown inside one attempt of `executeWithRetry`: the api call
rejected, the `validateResponse` predicate returned false, or the
`propertyPath` extraction came back `undefined`. -/
inductive AttemptError where
  | api (e : String)
  | validationFailed
  | extractFailed
deriving Repr, DecidableEq

/-- The options object of `executeWithRetry` with its default values. -/
structure RetryOptions where
  maxRetries : Nat := 3
  retryDelay : Nat := 1000
  retryMultiplier : Nat := 2
  validateResponse : Option (JVal → Bool) := none
  propertyPath : Option (List String) := none

/-- The body of the `try` block for one attempt: call, validate, extract. -/
def runAttempt (opts : RetryOptions) (o : ApiOutcome) : Except AttemptError JVal :=
  match o with
  | ApiOutcome.fail e => Except.error (AttemptError.api e)
  | ApiOutcome.resp v =>
      let validOk := match opts.validateResponse with
        | some f => f v
        | none => true
      if validOk then
        match opts.propertyPath with
        | some path =>
            match extractPath path v with
            | some w => Except.ok w
            | none => Except.error AttemptError.extractFailed
        | none => Except.ok v
      else Except.error AttemptError.validationFailed

/-- Result of the whole `executeWithRetry` call, with the backoff delays it
actually slept, in order. -/
structure RetryResult where
  result : Except AttemptError JVal
  sleeps : List Nat

/-- The `while (retryCount <= maxRetries)` loop, parametrised by the retries
remaining (`maxRetries - retryCount`), the current attempt index and the
current delay; `calls n` is the raw outcome of attempt `n`.  At
`remaining = 0` a failed attempt hits the `retryCount >= maxRetries` break
and the last error is rethrown; otherwise the loop sleeps `delay`, scales it
by the multiplier and retries. -/
def retryGo (opts : RetryOptions) (calls : Nat → ApiOutcome) :
    Nat → Nat → Nat → RetryResult
  | 0, attempt, _ =>
      match runAttempt opts (calls attempt) with
      | Except.ok v => { result := Except.ok v, sleeps := [] }
      | Except.error e => { result := Except.error e, sleeps := [] }
  | Nat.succ r, attempt, delay =>
      match runAttempt opts (calls attempt) with
      | Except.ok v => { result := Except.ok v, sleeps := [] }
      | Except.error _ =>
          let tail := retryGo opts calls r (attempt + 1) (delay * opts.retryMultiplier)
          { result := tail.result, sleeps := delay :: tail.sleeps }

/-- `executeWithRetry(apiCall, params, options)`. -/
def executeWithRetry (opts : RetryOptions) (calls : Nat → ApiOutcome) : RetryResult :=
  retryGo opts calls opts.maxRetries 0 opts.retryDelay

/-! Helper lemmas about the retry loop. -/

theorem retryGo_ok (opts : RetryOptions) (calls : Nat → ApiOutcome)
    (remaining attempt delay : Nat) (v : JVal)
    (h : runAttempt opts (calls attempt) = Except.ok v) :
    retryGo opts calls remaining attempt delay = { result := Except.ok v, sleeps := [] } := by
  cases remaining <;> simp [retryGo, h]

theorem retryGo_err_zero (opts : RetryOptions) (calls : Nat → ApiOutcome)
    (attempt delay : Nat) (e : AttemptError)
    (h : runAttempt opts (calls attempt) = Except.error e) :
    retryGo opts calls 0 attempt delay = { result := Except.error e, sleeps := [] } := by
  simp [retryGo, h]

theorem retryGo_err_succ (opts : RetryOptions) (calls : Nat → ApiOutcome)
    (r attempt delay : Nat) (e : AttemptError)
    (h : runAttempt opts (calls attempt) = Except.error e) :
    retryGo opts calls (r + 1) attempt delay =
      { result := (retryGo opts calls r (attempt + 1) (delay * opts.retryMultiplier)).result
        sleeps := delay :: (retryGo opts calls r (attempt + 1) (delay * opts.retryMultiplier)).sleeps } := by
  simp [retryGo, h]

/-- The geometric backoff schedule `delay, delay*m, delay*m^2, ...`. -/
def backoffs (delay multiplier : Nat) : Nat → List Nat
  | 0 => []
  | Nat.succ r => delay :: backoffs (delay * multiplier) multiplier r

/-- When every attempt fails with the same error, the loop sleeps the full
geometric schedule and finally rethrows that error. -/
theorem retryGo_all_fail (opts : RetryOptions) (calls : Nat → ApiOutcome)
    (e : AttemptError) (h : ∀ n, runAttempt opts (calls n) = Except.error e) :
    ∀ remaining attempt delay, retryGo opts calls remaining attempt delay =
      { result := Except.error e
        sleeps := backoffs delay opts.retryMultiplier remaining } := by
  intro remaining
  induction remaining with
  | zero =>
      intro attempt delay
      rw [retryGo_err_zero opts calls attempt delay e (h attempt)]
      simp [backoffs]
  | succ r ih =>
      intro attempt delay
      rw [retryGo_err_succ opts calls r attempt delay e (h attempt), ih]
      simp [backoffs]

/-! ## Create-from-snapshot with the kebab-case fallback
(`createInstanceFromSnapshot` of `vultrWrapper.js`) -/

/-- The validator `response && response.instance && response.instance.id`
passed to both create calls. -/
def createValidate (v : JVal) : Bool :=
  jTruthy v &&
    (match jGet v "instance" with
     | some inst =>
         jTruthy inst &&
           (match jGet inst "id" with
            | some idv => jTruthy idv
            | none => false)
     | none => false)

/-- The validator `response && response.snapshot` used by `getSnapshot`. -/
def snapshotValidate (v : JVal) : Bool :=
  jTruthy v &&
    (match jGet v "snapshot" with
     | some s => jTruthy s
     | none => false)

/-- Options of the `getSnapshot` call: extraction path `snapshot`, retry
settings left at their defaults. -/
def getSnapshotOpts : RetryOptions :=
  { propertyPath := some ["snapshot"], validateResponse := some snapshotValidate }

/-- Options of both `createInstance` calls (snake_case and kebab-case):
extraction path `instance`, retry settings left at their defaults. -/
def createOpts : RetryOptions :=
  { propertyPath := some ["instance"], validateResponse := some createValidate }

/-- Overall outcome of `createInstanceFromSnapshot`: the extracted instance,
the propagated `getSnapshot` error, or the combined error thrown when both
parameter spellings failed. -/
inductive CreateResult where
  | created (v : JVal)
  | snapshotError (e : AttemptError)
  | bothFailed (primary fallback : AttemptError)

/-- Trace of one logical `createInstanceFromSnapshot` call: its outcome, the
backoff delays slept by each of the up-to-three `executeWithRetry` calls,
and whether the kebab-case fallback ran at all. -/
structure CreateTrace where
  result : CreateResult
  snapSleeps : List Nat
  snakeSleeps : List Nat
  kebabAttempted : Bool
  kebabSleeps : List Nat

/-- `createInstanceFromSnapshot(snapshotId, label)`: verify the snapshot,
try the snake_case create (itself retried), and on any error retry once
with kebab-case keys (again through `executeWithRetry`); if both fail,
throw an error combining both messages.  `snapCalls`, `snakeCalls` and
`kebabCalls` are the raw outcomes of the attempts of each of the three
wrapped calls. -/
def createInstanceFromSnapshot (snapCalls snakeCalls kebabCalls : Nat → ApiOutcome) :
    CreateTrace :=
  let snap := executeWithRetry getSnapshotOpts snapCalls
  match snap.result with
  | Except.error e =>
      { result := CreateResult.snapshotError e
        snapSleeps := snap.sleeps
        snakeSleeps := []
        kebabAttempted := false
        kebabSleeps := [] }
  | Except.ok _ =>
      let primary := executeWithRetry createOpts snakeCalls
      match primary.result with
      | Except.ok v =>
          { result := CreateResult.created v
            snapSleeps := snap.sleeps
            snakeSleeps := primary.sleeps
            kebabAttempted := false
            kebabSleeps := [] }
      | Except.error e1 =>
          let fb := executeWithRetry createOpts kebabCalls
          match fb.result with
          | Except.ok v =>
              { result := CreateResult.created v
                snapSleeps := snap.sleeps
                snakeSleeps := primary.sleeps
                kebabAttempted := true
                kebabSleeps := fb.sleeps }
          | Except.error e2 =>
              { result := CreateResult.bothFailed e1 e2
                snapSleeps := snap.sleeps
                snakeSleeps := primary.sleeps
                kebabAttempted := true
                kebabSleeps := fb.sleeps }

/-! ## Self-protection guard and destroy candidate set
(`Dedi-Bot/index.js`) -/

/-- The process environment and metadata endpoint as the guard sees them:
`metadataResponse` is the body of a successful probe of
`http://169.254.169.254/v1/instanceid`, `none` when the probe fails or
times out. -/
structure SelfEnv where
  metadataResponse : Option String
  excludeInstanceId : Option String
  excludeSnapshotId : Option String

/-- `getCurrentServerInstanceId()`: the trimmed metadata body, else the
`EXCLUDE_INSTANCE_ID` override, else `null`. -/
def getCurrentServerInstanceId (env : SelfEnv) : Option String :=
  match env.metadataResponse with
  | some body => some body.trim
  | none => env.excludeInstanceId

/-- `isCurrentServer(instanceId)`: strict equality against the resolved id;
an unresolved identity (`null`) compares unequal to every id. -/
def isCurrentServer (env : SelfEnv) (instanceId : String) : Bool :=
  match getCurrentServerInstanceId env with
  | some own => own == instanceId
  | none => false

/-- The fields of a Vultr API instance object that the bot reads. -/
structure VultrInstance where
  id : String
  label : String
  status : String
  power_status : String
  main_ip : String
  region : String
  snapshot_id : String
deriving Repr, DecidableEq

/-- `listInstances()`: drop every instance for which `isCurrentServer` holds,
then, when `EXCLUDE_SNAPSHOT_ID` is set, also drop instances created from
that snapshot. -/
def listInstances (env : SelfEnv) (remote : List VultrInstance) : List VultrInstance :=
  let filtered := remote.filter (fun i => !isCurrentServer env i.id)
  match env.excludeSnapshotId with
  | some ex => filtered.filter (fun i => i.snapshot_id != ex)
  | none => filtered

/-- The candidate set of the `/destroy` command: `listInstances()` further
filtered by `status !== 'destroyed' && power_status !== 'destroyed'`. -/
def destroyCandidates (env : SelfEnv) (remote : List VultrInstance) : List VultrInstance :=
  (listInstances env remote).filter
    (fun i => i.status != "destroyed" && i.power_status != "destroyed")

/-- The `value` entries of the destroy select menu, one per candidate. -/
def destroyMenuIds (env : SelfEnv) (remote : List VultrInstance) : List String :=
  (destroyCandidates env remote).map (fun i => i.id)

/-- An error rejected by the Vultr client, as the bot inspects it:
`error.response.status` when a response is attached. -/
structure ApiError where
  responseStatus : Option Nat
  message : String
deriving Repr, DecidableEq

/-- `getInstance(instanceId)` of `Dedi-Bot/index.js`: a single raw API call
with no retry; a thrown error is logged and rethrown, and an instance
created from `EXCLUDE_SNAPSHOT_ID` is replaced by `null`. -/
def dediGetInstance (env : SelfEnv) (raw : Except ApiError VultrInstance) :
    Except ApiError (Option VultrInstance) :=
  match raw with
  | Except.error e => Except.error e
  | Except.ok inst =>
      match env.excludeSnapshotId with
      | some ex => if inst.snapshot_id == ex then Except.ok none else Except.ok (some inst)
      | none => Except.ok (some inst)

/-- Result and raw-call count of one `getInstance` invocation; the count
makes it observable that the fetch consults only the first raw outcome. -/
structure SingleFetch where
  result : Except ApiError (Option VultrInstance)
  rawCallsMade : Nat

/-- `getInstance` over a stream of raw outcomes: exactly one raw call. -/
def dediGetInstanceTraced (env : SelfEnv) (calls : Nat → Except ApiError VultrInstance) :
    SingleFetch :=
  { result := dediGetInstance env (calls 0), rawCallsMade := 1 }

/-- Whether the `destroy_server` select-menu handler reaches
`vultr.instances.deleteInstance`: it does exactly when the pre-destroy
`getInstance` fetch returned an instance — no self-host or identity check
happens at this point. -/
def destroySelectionIssuesDelete (fetchResult : Except ApiError (Option VultrInstance)) : Bool :=
  match fetchResult with
  | Except.ok (some _) => true
  | _ => false

/-! ## Create-status polling (`startInstanceStatusPolling`)

One poll fetches the instance, upserts the registry with the observed
power status and IP, and then branches: fully ready (stop, report the IP);
active but stopped (send a start command, poll again); anything else
(poll again).  A thrown fetch error keeps polling until the time budget is
spent.  We model the 30-minute budget by the finite list of per-poll fetch
outcomes: when it is exhausted the loop times out. -/

/-- Outcome of the create-status polling loop. -/
inductive CreatePollOutcome where
  | ready (ip : String)
  | excludedStop
  | timedOut
deriving Repr, DecidableEq

/-- The readiness test of the polling loop:
`status === 'active' && power_status === 'running' && main_ip && main_ip !== '0.0.0.0' && main_ip !== ''`. -/
def instanceReady (i : VultrInstance) : Bool :=
  i.status == "active" && i.power_status == "running" &&
    i.main_ip != "" && i.main_ip != "0.0.0.0"

/-- The stopped-but-active test that triggers a start command. -/
def instanceStoppedActive (i : VultrInstance) : Bool :=
  i.status == "active" && i.power_status == "stopped"

/-- The chained `pollStatus` calls of `startInstanceStatusPolling`, over the
list of successive `getInstance` outcomes.  Returns the final outcome, the
number of start commands issued, and the final registry. -/
def startInstanceStatusPolling :
    List (Except ApiError (Option VultrInstance)) → List InstanceRecord →
    String → String → Nat → CreatePollOutcome × Nat × List InstanceRecord
  | [], reg, _, _, starts => (CreatePollOutcome.timedOut, starts, reg)
  | o :: rest, reg, instanceId, now, starts =>
      match o with
      | Except.error _ => startInstanceStatusPolling rest reg instanceId now starts
      | Except.ok none => (CreatePollOutcome.excludedStop, starts, reg)
      | Except.ok (some inst) =>
          let reg2 := (updateInstance reg instanceId inst.power_status
            { ip := some inst.main_ip } now).1
          if instanceReady inst then
            (CreatePollOutcome.ready inst.main_ip, starts, reg2)
          else if instanceStoppedActive inst then
            startInstanceStatusPolling rest reg2 instanceId now (starts + 1)
          else
            startInstanceStatusPolling rest reg2 instanceId now starts

/-! ## Destruction polling (`startInstanceDestructionPolling`)

One poll fetches the instance; a `null`/absent instance confirms the
destruction, a present instance keeps polling, and a thrown error is
classified by its HTTP status: 404 and 403 also confirm the destruction,
anything else keeps polling until the time budget is spent. -/

/-- Decision of one destruction poll. -/
inductive DestroyPollStep where
  | confirmedDestroyed
  | keepPolling
  | keepPollingError
deriving Repr, DecidableEq

/-- Classification of one `getInstance` outcome by the destruction poll. -/
def destructionPollStep (fetchResult : Except ApiError (Option VultrInstance)) :
    DestroyPollStep :=
  match fetchResult with
  | Except.ok none => DestroyPollStep.confirmedDestroyed
  | Except.ok (some _) => DestroyPollStep.keepPolling
  | Except.error e =>
      match e.responseStatus with
      | some s =>
          if s == 404 || s == 403 then DestroyPollStep.confirmedDestroyed
          else DestroyPollStep.keepPollingError
      | none => DestroyPollStep.keepPollingError

/-- One destruction poll together with its registry effect: on confirmation
the bot runs `instanceState.updateInstance(instanceId, 'destroyed')`. -/
def destructionPollEffect (reg : List InstanceRecord) (instanceId now : String)
    (fetchResult : Except ApiError (Option VultrInstance)) :
    DestroyPollStep × List InstanceRecord :=
  match destructionPollStep fetchResult with
  | DestroyPollStep.confirmedDestroyed =>
      (DestroyPollStep.confirmedDestroyed,
        (updateInstance reg instanceId "destroyed" {} now).1)
  | s => (s, reg)

/-! ## Claim theorems -/

/-- Membership in the filtered `listInstances` result forces the self-host
check to have been false for that instance. -/
theorem mem_listInstances_not_self (env : SelfEnv) (remote : List VultrInstance)
    (inst : VultrInstance) (h : inst ∈ listInstances env remote) :
    isCurrentServer env inst.id = false := by
  unfold listInstances at h
  cases hex : env.excludeSnapshotId with
  | none =>
      rw [hex] at h
      simp only [List.mem_filter] at h
      simpa using h.2
  | some ex =>
      rw [hex] at h
      simp only [List.mem_filter] at h
      simpa using h.1.2

/-- C1: every instance id for which the self-host check resolves true is
removed from the `/destroy` candidate set built from `listInstances`, no
matter what the rest of the instance record (protection status included)
looks like: the id never appears among the select-menu values offered to
the destroy operation. -/
theorem c1_selfhost_excluded_from_destroy (env : SelfEnv) (remote : List VultrInstance)
    (instanceId : String) (h : isCurrentServer env instanceId = true) :
    instanceId ∉ destroyMenuIds env remote := by
  intro hmem
  obtain ⟨inst, hin, hid⟩ := List.mem_map.mp hmem
  have hlist : inst ∈ listInstances env remote :=
    (List.mem_filter.mp hin).1
  have hfalse := mem_listInstances_not_self env remote inst hlist
  rw [hid] at hfalse
  rw [h] at hfalse
  exact Bool.true_eq_false.mp hfalse

def c1env : SelfEnv :=
  { metadataResponse := none, excludeInstanceId := some "self-1", excludeSnapshotId := none }

def c1selfInstance : VultrInstance :=
  { id := "self-1", label := "Bot Host", status := "active", power_status := "running",
    main_ip := "5.6.7.8", region := "ewr", snapshot_id := "snap-0" }

def c1otherInstance : VultrInstance :=
  { id := "other-1", label := "Game", status := "active", power_status := "running",
    main_ip := "1.2.3.4", region := "dfw", snapshot_id := "snap-1" }

/-- Witness for C1 at a concrete fleet that contains the bot's own host. -/
theorem c1_witness :
    isCurrentServer c1env "self-1" = true ∧
    "self-1" ∉ destroyMenuIds c1env [c1selfInstance, c1otherInstance] :=
  ⟨by decide,
    c1_selfhost_excluded_from_destroy c1env [c1selfInstance, c1otherInstance] "self-1" (by decide)⟩

/-- C4: an operation that fails on its first two attempts and succeeds on
the third, run with `maxRetries` at least 2, returns the third attempt's
value and sleeps exactly twice beforehand, first the initial delay and then
the initial delay times the multiplier. -/
theorem c4_fail_twice_succeed_third (opts : RetryOptions) (calls : Nat → ApiOutcome)
    (e0 e1 : AttemptError) (v : JVal)
    (hmax : 2 ≤ opts.maxRetries)
    (h0 : runAttempt opts (calls 0) = Except.error e0)
    (h1 : runAttempt opts (calls 1) = Except.error e1)
    (h2 : runAttempt opts (calls 2) = Except.ok v) :
    executeWithRetry opts calls =
      { result := Except.ok v
        sleeps := [opts.retryDelay, opts.retryDelay * opts.retryMultiplier] } := by
  obtain ⟨k, hk⟩ : ∃ k, opts.maxRetries = (k + 1) + 1 := ⟨opts.maxRetries - 2, by omega⟩
  unfold executeWithRetry
  rw [hk]
  rw [retryGo_err_succ opts calls (k + 1) 0 opts.retryDelay e0 h0]
  rw [retryGo_err_succ opts calls k 1 (opts.retryDelay * opts.retryMultiplier) e1 h1]
  rw [retryGo_ok opts calls k 2 (opts.retryDelay * opts.retryMultiplier * opts.retryMultiplier) v h2]

def c4opts : RetryOptions := {}

def c4calls : Nat → ApiOutcome :=
  fun n => if n < 2 then ApiOutcome.fail "ETIMEDOUT" else ApiOutcome.resp (JVal.num 7)

/-- Witness for C4 with the wrapper's default options (`maxRetries = 3`,
`retryDelay = 1000`, `retryMultiplier = 2`). -/
theorem c4_witness :
    2 ≤ c4opts.maxRetries ∧
    executeWithRetry c4opts c4calls =
      { result := Except.ok (JVal.num 7), sleeps := [1000, 2000] } :=
  ⟨by decide,
    c4_fail_twice_succeed_third c4opts c4calls
      (AttemptError.api "ETIMEDOUT") (AttemptError.api "ETIMEDOUT") (JVal.num 7)
      (by decide) rfl rfl rfl⟩

/-- C10: `updateInstance` against an id that is not in the registry returns
`null` and leaves the registry exactly as it was — no record is created and
no record of any other id is touched. -/
theorem c10_updateInstance_absent_noop (reg : List InstanceRecord)
    (instanceId status : String) (md : UpdateMetadata) (now : String)
    (h : getInstance? reg instanceId = none) :
    updateInstance reg instanceId status md now = (reg, none) :=
  updateInstance_absent reg instanceId status md now h

def sampleRecord : InstanceRecord :=
  { id := "i1", creator := { id := "u1", username := "alice" }, createdAt := "t0",
    status := "active", ip := some "1.2.3.4", name := "srv", lastUpdated := "t0" }

/-- Witness for C10 on a registry that holds a different id. -/
theorem c10_witness :
    getInstance? [sampleRecord] "i2" = none ∧
    updateInstance [sampleRecord] "i2" "running" {} "t1" = ([sampleRecord], none) :=
  ⟨by decide,
    c10_updateInstance_absent_noop [sampleRecord] "i2" "running" {} "t1" (by decide)⟩

/-- C8: during destruction polling, a fetch whose single raw call rejects
with HTTP 404 is classified as successful convergence: the poll confirms
the destruction, the registry records status `destroyed` for the target id,
and the fetch consulted exactly one raw outcome — the 404 was not retried
before being classified. -/
theorem c8_destroy_404_converges (env : SelfEnv) (reg : List InstanceRecord)
    (instanceId now msg : String) (calls : Nat → Except ApiError VultrInstance)
    (r : InstanceRecord)
    (hc : calls 0 = Except.error { responseStatus := some 404, message := msg })
    (hr : getInstance? reg instanceId = some r) :
    (dediGetInstanceTraced env calls).rawCallsMade = 1 ∧
    destructionPollStep (dediGetInstanceTraced env calls).result
      = DestroyPollStep.confirmedDestroyed ∧
    (getInstance?
        (destructionPollEffect reg instanceId now (dediGetInstanceTraced env calls).result).2
        instanceId).map InstanceRecord.status = some "destroyed" := by
  have hstep : destructionPollStep (dediGetInstanceTraced env calls).result
      = DestroyPollStep.confirmedDestroyed := by
    simp [dediGetInstanceTraced, dediGetInstance, hc, destructionPollStep]
  refine ⟨rfl, hstep, ?_⟩
  have heff : (destructionPollEffect reg instanceId now (dediGetInstanceTraced env calls).result).2
      = (updateInstance reg instanceId "destroyed" {} now).1 := by
    unfold destructionPollEffect
    rw [hstep]
  rw [heff, updateInstance_get reg instanceId "destroyed" {} now r hr]
  simp [applyUpdate]

def c8calls : Nat → Except ApiError VultrInstance :=
  fun _ => Except.error { responseStatus := some 404, message := "instance not found" }

def c8env : SelfEnv :=
  { metadataResponse := none, excludeInstanceId := none, excludeSnapshotId := none }

/-- Witness for C8 on a one-record registry and an always-404 fetch. -/
theorem c8_witness :
    c8calls 0 = Except.error { responseStatus := some 404, message := "instance not found" } ∧
    getInstance? [sampleRecord] "i1" = some sampleRecord ∧
    (dediGetInstanceTraced c8env c8calls).rawCallsMade = 1 ∧
    destructionPollStep (dediGetInstanceTraced c8env c8calls).result
      = DestroyPollStep.confirmedDestroyed ∧
    (getInstance?
        (destructionPollEffect [sampleRecord] "i1" "t1" (dediGetInstanceTraced c8env c8calls).result).2
        "i1").map InstanceRecord.status = some "destroyed" :=
  ⟨rfl, by decide,
    c8_destroy_404_converges c8env [sampleRecord] "i1" "t1" "instance not found" c8calls
      sampleRecord rfl (by decide)⟩

/-! C2: the spec claims the creator recorded by the first upsert survives
any later upsert.  In the source, a repeated `logInstanceCreation` for an
existing id merges `{...existing, ...instanceData}` where `instanceData`
carries a fresh `creator` built from the new call's user, so the stored
creator is replaced. -/

def c2reg1 : List InstanceRecord := logInstanceCreation [] "i1" "u1" "alice" {} "t0"

def c2reg2 : List InstanceRecord := logInstanceCreation c2reg1 "i1" "u2" "bob" {} "t1"

/-- C2 counterexample: after `logInstanceCreation("i1", "u1", "alice")`
followed by `logInstanceCreation("i1", "u2", "bob")`, the stored creator is
bob, not the first creator alice — a later upsert did overwrite it. -/
theorem c2_counterexample :
    (getInstance? c2reg1 "i1").map InstanceRecord.creator
      = some { id := "u1", username := "alice" } ∧
    (getInstance? c2reg2 "i1").map InstanceRecord.creator
      = some { id := "u2", username := "bob" } ∧
    (getInstance? c2reg2 "i1").map InstanceRecord.creator
      ≠ (getInstance? c2reg1 "i1").map InstanceRecord.creator :=
  ⟨rfl, rfl, by decide⟩

/-- C2 amended: the recorded creator is invariant across any number of
`updateInstance` calls whose metadata does not itself carry a `creator`
key — for every id, not only the updated one — while a repeated
`logInstanceCreation` for an existing id replaces the stored creator with
the new call's user. -/
theorem c2_amended_creator_preservation (reg : List InstanceRecord)
    (instanceId status : String) (md : UpdateMetadata) (now : String)
    (hmd : md.creator = none) :
    (∀ qid, (getInstance? (updateInstance reg instanceId status md now).1 qid).map
        InstanceRecord.creator
      = (getInstance? reg qid).map InstanceRecord.creator) ∧
    (∀ (uid uname : String) (cmd : CreationMetadata) (ts : String),
      (getInstance? (logInstanceCreation reg instanceId uid uname cmd ts) instanceId).map
          InstanceRecord.creator
        = some { id := uid, username := uname }) := by
  constructor
  · intro qid
    induction reg with
    | nil => simp [updateInstance]
    | cons r rs ih =>
        by_cases hq : r.id = instanceId
        · by_cases heq : instanceId = qid
          · simp [updateInstance, hq, getInstance?, applyUpdate_id, heq, hq.trans heq,
              applyUpdate, hmd]
          · have hrq : ¬r.id = qid := fun h => heq (hq.symm.trans h)
            simp [updateInstance, hq, getInstance?, applyUpdate_id, hrq, heq]
        · by_cases hrq : r.id = qid
          · have hne : ¬qid = instanceId := fun h => hq (hrq.trans h)
            simp [updateInstance, hq, getInstance?, hrq, hne]
          · simp [updateInstance, hq, getInstance?, hrq, ih]
  · intro uid uname cmd ts
    rw [logInstanceCreation_get]
    rfl

/-- Witness for the amended C2 on a concrete registry. -/
theorem c2_amended_witness :
    ({} : UpdateMetadata).creator = none ∧
    (getInstance? (updateInstance c2reg1 "i1" "running" {} "t2").1 "i1").map
        InstanceRecord.creator
      = (getInstance? c2reg1 "i1").map InstanceRecord.creator :=
  ⟨rfl, (c2_amended_creator_preservation c2reg1 "i1" "running" {} "t2" rfl).1 "i1"⟩

/-! C6: the spec claims upserts against a terminal id are logged no-ops.
The source has no terminal check at all: `updateInstance` overwrites the
stored status unconditionally and a repeated `logInstanceCreation` resets
it to `creating`. -/

def c6reg : List InstanceRecord :=
  [{ id := "i1", creator := { id := "u1", username := "alice" }, createdAt := "t0",
     status := "destroyed", ip := none, name := "srv", lastUpdated := "t0" }]

/-- C6 counterexample: a record in terminal status `destroyed` is changed by
a subsequent `updateInstance` — its status becomes `running` and the stored
record differs from the one before the call, so the upsert is not a no-op
and the terminal status does not persist. -/
theorem c6_counterexample :
    (getInstance? c6reg "i1").map InstanceRecord.status = some "destroyed" ∧
    (getInstance? (updateInstance c6reg "i1" "running" {} "t1").1 "i1").map
        InstanceRecord.status = some "running" ∧
    (updateInstance c6reg "i1" "running" {} "t1").1 ≠ c6reg :=
  ⟨rfl, rfl, by decide⟩

/-- C6 amended: no terminal guard exists — `updateInstance` against an id
present in any status, terminal ones included, overwrites the stored status
with the given value (when the metadata object itself carries no `status`
key), and a repeated `logInstanceCreation` for the id resets the stored
status to `creating`. -/
theorem c6_amended_no_terminal_guard (reg : List InstanceRecord)
    (instanceId status : String) (md : UpdateMetadata) (now : String)
    (r : InstanceRecord)
    (hr : getInstance? reg instanceId = some r) (hmd : md.status = none) :
    (getInstance? (updateInstance reg instanceId status md now).1 instanceId).map
        InstanceRecord.status = some status ∧
    ∀ (uid uname : String) (cmd : CreationMetadata) (ts : String),
      (getInstance? (logInstanceCreation reg instanceId uid uname cmd ts) instanceId).map
          InstanceRecord.status = some "creating" := by
  constructor
  · rw [updateInstance_get reg instanceId status md now r hr]
    simp [applyUpdate, hmd]
  · intro uid uname cmd ts
    rw [logInstanceCreation_get]
    rfl

/-- Witness for the amended C6 on a registry whose only record is in the
terminal status `destroyed`. -/
theorem c6_amended_witness :
    (getInstance? c6reg "i1").map InstanceRecord.status = some "destroyed" ∧
    (getInstance? (updateInstance c6reg "i1" "running" {} "t1").1 "i1").map
        InstanceRecord.status = some "running" :=
  ⟨rfl, (c6_amended_no_terminal_guard c6reg "i1" "running" {} "t1" _ rfl rfl).1⟩

/-! C3: the spec claims validation/extraction failures are non-transient and
raise a permanent failure immediately with no retry.  In the source the
validation error is thrown inside the `try` block of the retry loop and
caught by the same `catch` as transport errors, so it is retried with the
full backoff schedule. -/

def c3opts : RetryOptions :=
  { maxRetries := 2, retryDelay := 1000, retryMultiplier := 2,
    validateResponse := some (fun _ => false) }

def c3calls : Nat → ApiOutcome := fun _ => ApiOutcome.resp (JVal.obj [])

/-- C3 counterexample: with a `validateResponse` predicate that rejects every
response, the call is attempted three times (`maxRetries = 2`) and the
client sleeps two backoff delays, 1000 then 2000, before finally throwing
the validation error — it is not raised immediately and the failed
validation is retried. -/
theorem c3_counterexample :
    (executeWithRetry c3opts c3calls).sleeps = [1000, 2000] ∧
    (executeWithRetry c3opts c3calls).result = Except.error AttemptError.validationFailed :=
  ⟨rfl, rfl⟩

/-- C3 amended: a response that fails the `validateResponse` predicate is
treated like any other thrown error — it is retried with the full
exponential backoff schedule (`maxRetries` sleeps of
`delay * multiplier^i`), and only after the budget is exhausted is the
validation error thrown; there is no immediate no-retry path for
validation failures. -/
theorem c3_amended_validation_retried (opts : RetryOptions) (calls : Nat → ApiOutcome)
    (hv : opts.validateResponse = some (fun _ => false))
    (hcalls : ∀ n, ∃ v, calls n = ApiOutcome.resp v) :
    executeWithRetry opts calls =
      { result := Except.error AttemptError.validationFailed
        sleeps := backoffs opts.retryDelay opts.retryMultiplier opts.maxRetries } := by
  have h : ∀ n, runAttempt opts (calls n) = Except.error AttemptError.validationFailed := by
    intro n
    obtain ⟨v, hv2⟩ := hcalls n
    simp [runAttempt, hv2, hv]
  exact retryGo_all_fail opts calls AttemptError.validationFailed h
    opts.maxRetries 0 opts.retryDelay

/-- Witness for the amended C3 at the counterexample's concrete inputs. -/
theorem c3_amended_witness :
    executeWithRetry c3opts c3calls =
      { result := Except.error AttemptError.validationFailed
        sleeps := backoffs 1000 2 2 } :=
  c3_amended_validation_retried c3opts c3calls rfl (fun _ => ⟨JVal.obj [], rfl⟩)

/-! C5: the spec claims the kebab-case fallback is triggered only by a
client-request error and is never mixed with the exponential-backoff retry
budget.  In the source the fallback runs after any failure of the primary
call and is itself a fresh `executeWithRetry` invocation with the default
backoff budget. -/

def c5snapCalls : Nat → ApiOutcome :=
  fun _ => ApiOutcome.resp (JVal.obj [("snapshot", JVal.obj [("id", JVal.str "snap-1")])])

def c5failCalls : Nat → ApiOutcome := fun _ => ApiOutcome.fail "400 bad request"

/-- C5 counterexample: when the primary snake_case call fails, the
kebab-case fallback is attempted and itself sleeps the full default backoff
schedule 1000, 2000, 4000 (`maxRetries = 3`) — the fallback is wrapped in
the backoff/retry loop and consumes a fresh retry budget, contrary to the
claim. -/
theorem c5_counterexample :
    (createInstanceFromSnapshot c5snapCalls c5failCalls c5failCalls).kebabAttempted = true ∧
    (createInstanceFromSnapshot c5snapCalls c5failCalls c5failCalls).kebabSleeps
      = [1000, 2000, 4000] :=
  ⟨rfl, rfl⟩

/-- C5 amended: whenever the snapshot check succeeds and the primary
snake_case call fails — for any reason, not only a client-request error —
the kebab-case fallback runs exactly once per logical call, but that single
fallback is itself executed through `executeWithRetry` with its own fresh
default backoff budget, sleeping that call's full backoff schedule. -/
theorem c5_amended_fallback_wrapped (snapCalls snakeCalls kebabCalls : Nat → ApiOutcome)
    (w : JVal) (e1 : AttemptError)
    (hsnap : (executeWithRetry getSnapshotOpts snapCalls).result = Except.ok w)
    (hprimary : (executeWithRetry createOpts snakeCalls).result = Except.error e1) :
    (createInstanceFromSnapshot snapCalls snakeCalls kebabCalls).kebabAttempted = true ∧
    (createInstanceFromSnapshot snapCalls snakeCalls kebabCalls).kebabSleeps
      = (executeWithRetry createOpts kebabCalls).sleeps ∧
    (createInstanceFromSnapshot snapCalls snakeCalls kebabCalls).result
      = (match (executeWithRetry createOpts kebabCalls).result with
         | Except.ok v => CreateResult.created v
         | Except.error e2 => CreateResult.bothFailed e1 e2) := by
  cases hfb : (executeWithRetry createOpts kebabCalls).result with
  | ok v => simp [createInstanceFromSnapshot, hsnap, hprimary, hfb]
  | error e2 => simp [createInstanceFromSnapshot, hsnap, hprimary, hfb]

/-- Witness for the amended C5 at the counterexample's concrete inputs. -/
theorem c5_amended_witness :
    (createInstanceFromSnapshot c5snapCalls c5failCalls c5failCalls).kebabAttempted = true ∧
    (createInstanceFromSnapshot c5snapCalls c5failCalls c5failCalls).kebabSleeps
      = (executeWithRetry createOpts c5failCalls).sleeps :=
  ⟨(c5_amended_fallback_wrapped c5snapCalls c5failCalls c5failCalls
      (JVal.obj [("id", JVal.str "snap-1")]) (AttemptError.api "400 bad request")
      rfl rfl).1,
   (c5_amended_fallback_wrapped c5snapCalls c5failCalls c5failCalls
      (JVal.obj [("id", JVal.str "snap-1")]) (AttemptError.api "400 bad request")
      rfl rfl).2.1⟩

/-! C7: the spec's Create scenario expects exactly one Start command after
first observing the stopped-but-active state.  In the source a Start
command is sent on every poll that observes `status=active` with
`power_status=stopped`, so two stopped polls produce two Start commands. -/

/-- A stopped-but-active observation never satisfies the readiness test. -/
theorem stoppedActive_not_ready (s : VultrInstance)
    (hs : instanceStoppedActive s = true) : instanceReady s = false := by
  unfold instanceStoppedActive at hs
  have hp : s.power_status = "stopped" := by
    simp only [Bool.and_eq_true, beq_iff_eq] at hs
    exact hs.2
  have hb : (("stopped" : String) == "running") = false := by decide
  unfold instanceReady
  rw [hp, hb]
  simp

/-- The polling loop on `k` stopped-but-active observations followed by one
ready observation: it reports the ready IP and issues one Start command per
stopped poll. -/
theorem pollLoop_counts_starts (s r : VultrInstance) (instanceId now : String)
    (hs : instanceStoppedActive s = true) (hr : instanceReady r = true) :
    ∀ (k : Nat) (reg : List InstanceRecord) (starts : Nat),
      (startInstanceStatusPolling
          (List.replicate k (Except.ok (some s)) ++ [Except.ok (some r)])
          reg instanceId now starts).1 = CreatePollOutcome.ready r.main_ip ∧
      (startInstanceStatusPolling
          (List.replicate k (Except.ok (some s)) ++ [Except.ok (some r)])
          reg instanceId now starts).2.1 = starts + k := by
  intro k
  induction k with
  | zero =>
      intro reg starts
      simp [startInstanceStatusPolling, hr]
  | succ n ih =>
      intro reg starts
      have hnotready := stoppedActive_not_ready s hs
      have hstep :
          startInstanceStatusPolling
              (List.replicate (n + 1) (Except.ok (some s)) ++ [Except.ok (some r)])
              reg instanceId now starts
            = startInstanceStatusPolling
                (List.replicate n (Except.ok (some s)) ++ [Except.ok (some r)])
                ((updateInstance reg instanceId s.power_status
                    { ip := some s.main_ip } now).1) instanceId now (starts + 1) := by
        simp [List.replicate_succ, startInstanceStatusPolling, hnotready, hs]
      rw [hstep]
      refine ⟨(ih _ _).1, ?_⟩
      rw [(ih _ _).2]
      omega

/-- C7 amended: in the Create polling scenario the orchestrator issues one
Start command per poll that observes the stopped-but-active state — `k`
Start commands for `k` such polls, hence two (not one) when `powerStatus`
reads stopped on the first two polls — and then returns the ready IP once a
poll observes the running state with a real IP. -/
theorem c7_amended_start_per_stopped_poll (s r : VultrInstance)
    (instanceId now : String) (k : Nat) (reg : List InstanceRecord)
    (hs : instanceStoppedActive s = true) (hr : instanceReady r = true) :
    (startInstanceStatusPolling
        (List.replicate k (Except.ok (some s)) ++ [Except.ok (some r)])
        reg instanceId now 0).1 = CreatePollOutcome.ready r.main_ip ∧
    (startInstanceStatusPolling
        (List.replicate k (Except.ok (some s)) ++ [Except.ok (some r)])
        reg instanceId now 0).2.1 = k := by
  have h := pollLoop_counts_starts s r instanceId now hs hr k reg 0
  simpa using h

def c7stopped : VultrInstance :=
  { id := "inst-1", label := "Test", status := "active", power_status := "stopped",
    main_ip := "0.0.0.0", region := "dfw", snapshot_id := "snap-1" }

def c7running : VultrInstance :=
  { id := "inst-1", label := "Test", status := "active", power_status := "running",
    main_ip := "1.2.3.4", region := "dfw", snapshot_id := "snap-1" }

def c7obs : List (Except ApiError (Option VultrInstance)) :=
  [Except.ok (some c7stopped), Except.ok (some c7stopped), Except.ok (some c7running)]

/-- C7 counterexample: with `status=active, powerStatus=stopped` on the
first two polls and `running` with IP `1.2.3.4` on the third, the loop
returns the ready IP but has issued two Start commands, not exactly one. -/
theorem c7_counterexample :
    (startInstanceStatusPolling c7obs [] "inst-1" "t" 0).1
      = CreatePollOutcome.ready "1.2.3.4" ∧
    (startInstanceStatusPolling c7obs [] "inst-1" "t" 0).2.1 = 2 ∧
    (startInstanceStatusPolling c7obs [] "inst-1" "t" 0).2.1 ≠ 1 :=
  ⟨rfl, rfl, by decide⟩

/-- Witness for the amended C7 at the concrete scenario (`k = 2`). -/
theorem c7_amended_witness :
    instanceStoppedActive c7stopped = true ∧ instanceReady c7running = true ∧
    (startInstanceStatusPolling
        (List.replicate 2 (Except.ok (some c7stopped)) ++ [Except.ok (some c7running)])
        [] "inst-1" "t" 0).1 = CreatePollOutcome.ready c7running.main_ip ∧
    (startInstanceStatusPolling
        (List.replicate 2 (Except.ok (some c7stopped)) ++ [Except.ok (some c7running)])
        [] "inst-1" "t" 0).2.1 = 2 :=
  ⟨by decide, by decide,
    (c7_amended_start_per_stopped_poll c7stopped c7running "inst-1" "t" 2 []
      (by decide) (by decide)).1,
    (c7_amended_start_per_stopped_poll c7stopped c7running "inst-1" "t" 2 []
      (by decide) (by decide)).2⟩

/-! C9: the spec claims that with the metadata probe failed and no override
configured the self-host check returns Unknown and Destroy requests are
refused.  In the source `isCurrentServer` is boolean: the unresolved `null`
identity compares unequal to every id, so the check answers false
("not self") and the destroy handler proceeds to `deleteInstance` whenever
the pre-destroy fetch returned the instance. -/

def c9env : SelfEnv :=
  { metadataResponse := none, excludeInstanceId := none, excludeSnapshotId := none }

def c9inst : VultrInstance :=
  { id := "abc", label := "Test", status := "active", power_status := "running",
    main_ip := "1.2.3.4", region := "dfw", snapshot_id := "snap-1" }

/-- C9 counterexample: with the probe failed and no override, the self-host
check answers `false` (a definite "not self", not Unknown) for candidate
`abc`, and the destroy selection handler proceeds to issue the delete
command for `abc` rather than refusing. -/
theorem c9_counterexample :
    isCurrentServer c9env "abc" = false ∧
    destroySelectionIssuesDelete (dediGetInstance c9env (Except.ok c9inst)) = true :=
  ⟨rfl, rfl⟩

/-- C9 amended: when the metadata probe fails and no override identifier is
configured, the self-host check returns `false` — treating every candidate
id as not-self, with no Unknown value in its boolean result type — and a
Destroy request proceeds to the delete command whenever the pre-destroy
fetch returns the instance; nothing refuses the operation for unresolved
identity. -/
theorem c9_amended_fail_open (env : SelfEnv) (instanceId : String)
    (inst : VultrInstance)
    (hm : env.metadataResponse = none) (ho : env.excludeInstanceId = none)
    (hfetch : dediGetInstance env (Except.ok inst) = Except.ok (some inst)) :
    isCurrentServer env instanceId = false ∧
    destroySelectionIssuesDelete (dediGetInstance env (Except.ok inst)) = true := by
  constructor
  · simp [isCurrentServer, getCurrentServerInstanceId, hm, ho]
  · rw [hfetch]; rfl

/-- Witness for the amended C9 at the counterexample's concrete inputs. -/
theorem c9_amended_witness :
    c9env.metadataResponse = none ∧ c9env.excludeInstanceId = none ∧
    isCurrentServer c9env "abc" = false ∧
    destroySelectionIssuesDelete (dediGetInstance c9env (Except.ok c9inst)) = true :=
  ⟨rfl, rfl,
    (c9_amended_fail_open c9env "abc" c9inst rfl rfl rfl).1,
    (c9_amended_fail_open c9env "abc" c9inst rfl rfl rfl).2⟩

end Dedi
